import Mathlib

/-!
Shallow embedding of `pymongo/auth.py` (authentication helpers of an early
PyMongo driver).  Byte strings are `List Nat` (each element a byte value),
machine words are `Nat` reduced modulo `2 ^ 32` where the code relies on
32-bit overflow.  Fallible Python code is modelled with `Except`.
-/

namespace Auth

/-- UTF-8 encoding of a single Unicode code point, as byte values. -/
def utf8Char (c : Nat) : List Nat :=
  if c < 128 then [c]
  else if c < 2048 then [192 + c / 64, 128 + c % 64]
  else if c < 65536 then [224 + c / 4096, 128 + (c / 64) % 64, 128 + c % 64]
  else [240 + c / 262144, 128 + (c / 4096) % 64, 128 + (c / 64) % 64, 128 + c % 64]

/-- UTF-8 encoding of a string (Python `s.encode('utf-8')`), as byte values. -/
def utf8 (s : String) : List Nat :=
  (s.data.map (fun c => utf8Char c.toNat)).flatten

/-- 32-bit left rotation. -/
def rotl32 (x n : Nat) : Nat :=
  ((x <<< n) ||| (x >>> (32 - n))) % 4294967296

/-- The 64 MD5 sine-derived round constants. -/
def md5K : List Nat :=
  [0xd76aa478, 0xe8c7b756, 0x242070db, 0xc1bdceee,
   0xf57c0faf, 0x4787c62a, 0xa8304613, 0xfd469501,
   0x698098d8, 0x8b44f7af, 0xffff5bb1, 0x895cd7be,
   0x6b901122, 0xfd987193, 0xa679438e, 0x49b40821,
   0xf61e2562, 0xc040b340, 0x265e5a51, 0xe9b6c7aa,
   0xd62f105d, 0x02441453, 0xd8a1e681, 0xe7d3fbc8,
   0x21e1cde6, 0xc33707d6, 0xf4d50d87, 0x455a14ed,
   0xa9e3e905, 0xfcefa3f8, 0x676f02d9, 0x8d2a4c8a,
   0xfffa3942, 0x8771f681, 0x6d9d6122, 0xfde5380c,
   0xa4beea44, 0x4bdecfa9, 0xf6bb4b60, 0xbebfbc70,
   0x289b7ec6, 0xeaa127fa, 0xd4ef3085, 0x04881d05,
   0xd9d4d039, 0xe6db99e5, 0x1fa27cf8, 0xc4ac5665,
   0xf4292244, 0x432aff97, 0xab9423a7, 0xfc93a039,
   0x655b59c3, 0x8f0ccc92, 0xffeff47d, 0x85845dd1,
   0x6fa87e4f, 0xfe2ce6e0, 0xa3014314, 0x4e0811a1,
   0xf7537e82, 0xbd3af235, 0x2ad7d2bb, 0xeb86d391]

/-- The 64 MD5 per-round left-rotation amounts. -/
def md5S : List Nat :=
  [7, 12, 17, 22, 7, 12, 17, 22, 7, 12, 17, 22, 7, 12, 17, 22,
   5, 9, 14, 20, 5, 9, 14, 20, 5, 9, 14, 20, 5, 9, 14, 20,
   4, 11, 16, 23, 4, 11, 16, 23, 4, 11, 16, 23, 4, 11, 16, 23,
   6, 10, 15, 21, 6, 10, 15, 21, 6, 10, 15, 21, 6, 10, 15, 21]

/-- Group a byte list into little-endian 32-bit words. -/
def leWords : List Nat → List Nat
  | b0 :: b1 :: b2 :: b3 :: rest =>
      (b0 + 256 * b1 + 65536 * b2 + 16777216 * b3) :: leWords rest
  | _ => []

/-- Little-endian bytes of a 32-bit word. -/
def le4 (n : Nat) : List Nat :=
  [n % 256, n / 256 % 256, n / 65536 % 256, n / 16777216 % 256]

/-- Little-endian 8-byte encoding of a (mod `2 ^ 64`) length field. -/
def le8 (n : Nat) : List Nat :=
  (List.range 8).map (fun i => n / 256 ^ i % 256)

/-- MD5 padding: append `0x80`, zero bytes to 56 mod 64, then the bit length. -/
def md5pad (msg : List Nat) : List Nat :=
  msg ++ [128] ++ List.replicate ((119 - msg.length % 64) % 64) 0
      ++ le8 (msg.length * 8)

/-- One MD5 round: mixes word `i` of the message schedule into the state. -/
def md5round (M : List Nat) (st : Nat × Nat × Nat × Nat) (i : Nat) :
    Nat × Nat × Nat × Nat :=
  let A := st.1
  let B := st.2.1
  let C := st.2.2.1
  let D := st.2.2.2
  let F :=
    if i < 16 then (B &&& C) ||| ((B ^^^ 4294967295) &&& D)
    else if i < 32 then (D &&& B) ||| ((D ^^^ 4294967295) &&& C)
    else if i < 48 then B ^^^ C ^^^ D
    else C ^^^ (B ||| (D ^^^ 4294967295))
  let g :=
    if i < 16 then i
    else if i < 32 then (5 * i + 1) % 16
    else if i < 48 then (3 * i + 5) % 16
    else (7 * i) % 16
  let F2 := (F + A + md5K.getD i 0 + M.getD g 0) % 4294967296
  (D, (B + rotl32 F2 (md5S.getD i 0)) % 4294967296, B, C)

/-- Process one 64-byte MD5 block. -/
def md5chunk (st : Nat × Nat × Nat × Nat) (block : List Nat) :
    Nat × Nat × Nat × Nat :=
  let M := leWords block
  let e := (List.range 64).foldl (md5round M) st
  ((st.1 + e.1) % 4294967296, (st.2.1 + e.2.1) % 4294967296,
   (st.2.2.1 + e.2.2.1) % 4294967296, (st.2.2.2 + e.2.2.2) % 4294967296)

/-- Fold the MD5 compression function over `n` consecutive 64-byte blocks. -/
def md5blocks : Nat → (Nat × Nat × Nat × Nat) → List Nat → Nat × Nat × Nat × Nat
  | 0, st, _ => st
  | n + 1, st, l => md5blocks n (md5chunk st (l.take 64)) (l.drop 64)

/-- MD5 of a byte string, as the 16 digest bytes. -/
def md5 (msg : List Nat) : List Nat :=
  let padded := md5pad msg
  let st := md5blocks (padded.length / 64)
      (0x67452301, 0xefcdab89, 0x98badcfe, 0x10325476) padded
  le4 st.1 ++ le4 st.2.1 ++ le4 st.2.2.1 ++ le4 st.2.2.2

/-- Lowercase hexadecimal digit. -/
def hexChar (n : Nat) : Char :=
  if n < 10 then Char.ofNat (48 + n) else Char.ofNat (87 + n)

/-- Two lowercase hex characters for one byte. -/
def hexByte (b : Nat) : List Char :=
  [hexChar (b / 16), hexChar (b % 16)]

/-- Lowercase hex string of a byte list (Python `hexdigest()`). -/
def hexdigest (bs : List Nat) : String :=
  String.mk (bs.map hexByte).flatten

/-- HMAC-MD5 over byte strings (Python `hmac.HMAC(key, digestmod=md5)`). -/
def hmacMd5 (key msg : List Nat) : List Nat :=
  let k0 := if 64 < key.length then md5 key else key
  let k := k0 ++ List.replicate (64 - k0.length) 0
  md5 ((k.map (fun b => b ^^^ 92)) ++ md5 ((k.map (fun b => b ^^^ 54)) ++ msg))

/-- A dynamically typed Python value in a string position: either an actual
text string or some non-textual object (failing `isinstance(_, string_type)`). -/
inductive PyStr where
  | s (v : String)
  | nonText
deriving DecidableEq

/-- The typed errors the module can raise, plus the untyped failures Python
produces on its own (`TypeError` from bad dynamic types, and the
`TypeError: NoneType object is not callable` from invoking a `None` lookup). -/
inductive AuthError where
  | configurationError (msg : String)
  | operationFailure (msg : String)
  | typeError (msg : String)
  | valueError (msg : String)
  | noneNotCallable
deriving DecidableEq

/-- A BSON-ish value occurring in the command documents this module builds. -/
inductive Value where
  | int (i : Int)
  | str (s : String)
  | bin (bs : List Nat)
  | nullv
deriving DecidableEq

/-- An ordered command document (`SON` preserves field order). -/
abbrev Doc := List (String × Value)

/-- `Value.str` for a present string, `Value.nullv` for Python `None`. -/
def valueOfOpt : Option String → Value
  | some s => Value.str s
  | none => Value.nullv

/-- GSSAPI mechanism properties (`{'service_name': ...}`). -/
structure GssProps where
  service_name : String
deriving DecidableEq

/-- The `MongoCredential` namedtuple. -/
structure MongoCredential where
  mechanism : String
  source : String
  username : String
  password : Option String
  mechanism_properties : Option GssProps
deriving DecidableEq

/-- `_build_credentials_tuple(mech, source, user, passwd, extra)`:
build and return a mechanism specific credentials tuple. -/
def _build_credentials_tuple (mech source user : String) (passwd : Option String)
    (extra : List (String × String)) : MongoCredential :=
  if mech = "GSSAPI" then
    { mechanism := mech, source := "$external", username := user,
      password := none,
      mechanism_properties :=
        some ⟨((extra.lookup "gssapiservicename").getD "mongodb")⟩ }
  else if mech = "MONGODB-X509" then
    { mechanism := mech, source := "$external", username := user,
      password := none, mechanism_properties := none }
  else
    { mechanism := mech, source := source, username := user,
      password := passwd, mechanism_properties := none }

/-- `_password_digest(username, password)`: the legacy password digest, with
Python's dynamic checks (password type, password emptiness, username type,
in that order) made explicit. -/
def _password_digest (username password : PyStr) : Except AuthError String :=
  match password with
  | PyStr.nonText => Except.error (AuthError.typeError
      "password must be an instance of str")
  | PyStr.s pw =>
    if pw.length = 0 then
      Except.error (AuthError.valueError "password can not be empty")
    else
      match username with
      | PyStr.nonText => Except.error (AuthError.typeError
          "password must be an instance of str")
      | PyStr.s u =>
          Except.ok (hexdigest (md5 (utf8 (u ++ ":mongo:" ++ pw))))

/-- `_auth_key(nonce, username, password)`: hex digest of
`"<nonce><username><passwordDigest>"`. -/
def _auth_key (nonce username : String) (password : PyStr) :
    Except AuthError String := do
  let digest ← _password_digest (PyStr.s username) password
  Except.ok (hexdigest (md5 (utf8 (nonce ++ username ++ digest))))

/-- `PyStr` view of a credential password (`None` is non-textual). -/
def pyOfOpt : Option String → PyStr
  | some s => PyStr.s s
  | none => PyStr.nonText

/-- A mock server reply document, carrying the typed fields the
authenticators read from replies (`payload` as bytes or text,
`conversationId`, `nonce`). -/
structure Reply where
  payloadB : List Nat
  payloadS : String
  conversationId : Int
  nonce : String

/-- The external pykerberos capability, over an explicit context-state
type `σ` (the C library mutates the context in place; we thread states). -/
structure Kerberos (σ : Type) where
  clientInit : String → Int × σ
  clientStep : σ → String → Int × σ
  clientResponse : σ → Option String
  clientUnwrap : σ → String → Int × σ
  clientWrap : σ → Option String → String → Int × σ

/-- The collaborators an authenticator consumes: the connection's remote
host, the command channel (`reply n` answers the authenticator's `n`-th
reply-consuming command), and the kerberos engine. -/
structure Channel (σ : Type) where
  host : String
  reply : Nat → Reply
  kerb : Kerberos σ

/-- What an authentication run does that the outside can see: commands sent
on the command channel (database name and document), and the release of the
GSSAPI security context. -/
inductive Event where
  | sent (db : String) (cmd : Doc)
  | cleaned
deriving DecidableEq

/-- `_authenticate_plain`: single `saslStart` round (RFC 4616). -/
def _authenticate_plain {σ : Type} (credentials : MongoCredential)
    (_ch : Channel σ) : Except AuthError Unit × List Event :=
  let payload := utf8 ("\x00" ++ credentials.username ++ "\x00"
      ++ (match credentials.password with | some p => p | none => "None"))
  (Except.ok (),
   [Event.sent credentials.source
     [("saslStart", Value.int 1), ("mechanism", Value.str "PLAIN"),
      ("payload", Value.bin payload), ("autoAuthorize", Value.int 1)]])

/-- `_authenticate_cram_md5`: two SASL rounds (RFC 2195); the digest is
computed before the first command is sent. -/
def _authenticate_cram_md5 {σ : Type} (credentials : MongoCredential)
    (ch : Channel σ) : Except AuthError Unit × List Event :=
  match _password_digest (PyStr.s credentials.username)
      (pyOfOpt credentials.password) with
  | Except.error e => (Except.error e, [])
  | Except.ok passwd =>
    let cmd1 : Doc :=
      [("saslStart", Value.int 1), ("mechanism", Value.str "CRAM-MD5"),
       ("payload", Value.bin []), ("autoAuthorize", Value.int 1)]
    let response := ch.reply 0
    let mac := hmacMd5 (utf8 passwd) response.payloadB
    let challenge := utf8 credentials.username ++ [32] ++ utf8 (hexdigest mac)
    let cmd2 : Doc :=
      [("saslContinue", Value.int 1),
       ("conversationId", Value.int response.conversationId),
       ("payload", Value.bin challenge)]
    (Except.ok (),
     [Event.sent credentials.source cmd1, Event.sent credentials.source cmd2])

/-- `_authenticate_x509`: single `authenticate` command. -/
def _authenticate_x509 {σ : Type} (credentials : MongoCredential)
    (_ch : Channel σ) : Except AuthError Unit × List Event :=
  (Except.ok (),
   [Event.sent "$external"
     [("authenticate", Value.int 1), ("mechanism", Value.str "MONGODB-X509"),
      ("user", Value.str credentials.username)]])

/-- `_authenticate_mongo_cr`: `getnonce` then `authenticate`; the nonce is
requested before the key computation (which can raise) happens. -/
def _authenticate_mongo_cr {σ : Type} (credentials : MongoCredential)
    (ch : Channel σ) : Except AuthError Unit × List Event :=
  let ev1 := Event.sent credentials.source [("getnonce", Value.int 1)]
  let response := ch.reply 0
  let nonce := response.nonce
  match _auth_key nonce credentials.username (pyOfOpt credentials.password) with
  | Except.error e => (Except.error e, [ev1])
  | Except.ok key =>
    (Except.ok (),
     [ev1,
      Event.sent credentials.source
        [("authenticate", Value.int 1),
         ("user", Value.str credentials.username),
         ("nonce", Value.str nonce), ("key", Value.str key)]])

/-- The `for _ in range(10)` negotiate loop of `_authenticate_gssapi`,
with the bound as explicit fuel.  Each iteration advances the context with
the payload of the last server reply (`-1` is fatal), sends a
`saslContinue` carrying the last reply's `conversationId` and the next
context output (or the empty string), and stops once the step result is
`AUTH_GSS_COMPLETE` (`1`); running out of fuel is the `for`-`else` branch
raising `OperationFailure`. -/
def gssLoop {σ : Type} (K : Kerberos σ) (reply : Nat → Reply) :
    Nat → σ → Reply → Nat → Except AuthError (σ × Reply) × List Event
  | 0, _, _, _ =>
    (Except.error (AuthError.operationFailure
        "Kerberos authentication failed to complete."), [])
  | fuel + 1, ctx, resp, idx =>
    let st := K.clientStep ctx resp.payloadS
    if st.1 = -1 then
      (Except.error (AuthError.operationFailure
          "Unknown kerberos failure in step function."), [])
    else
      let payload := (K.clientResponse st.2).getD ""
      let ev := Event.sent "$external"
        [("saslContinue", Value.int 1),
         ("conversationId", Value.int resp.conversationId),
         ("payload", Value.str payload)]
      let resp2 := reply idx
      if st.1 = 1 then (Except.ok (st.2, resp2), [ev])
      else
        let rest := gssLoop K reply fuel st.2 resp2 (idx + 1)
        (rest.1, ev :: rest.2)

/-- The body of `_authenticate_gssapi` inside the inner `try` block (the part
whose `finally` releases the context): first step with empty input,
`saslStart`, the bounded negotiate loop, then unwrap / wrap / final
`saslContinue`. -/
def gssInner {σ : Type} (credentials : MongoCredential) (ch : Channel σ)
    (ctx : σ) : Except AuthError Unit × List Event :=
  let s1 := ch.kerb.clientStep ctx ""
  if s1.1 ≠ 0 then
    (Except.error (AuthError.operationFailure
        "Unknown kerberos failure in step function."), [])
  else
    let ev0 := Event.sent "$external"
      [("saslStart", Value.int 1), ("mechanism", Value.str "GSSAPI"),
       ("payload", valueOfOpt (ch.kerb.clientResponse s1.2)),
       ("autoAuthorize", Value.int 1)]
    let lp := gssLoop ch.kerb ch.reply 10 s1.2 (ch.reply 0) 1
    match lp.1 with
    | Except.error e => (Except.error e, ev0 :: lp.2)
    | Except.ok (ctx2, resp2) =>
      let u := ch.kerb.clientUnwrap ctx2 resp2.payloadS
      if u.1 ≠ 1 then
        (Except.error (AuthError.operationFailure
            "Unknown kerberos failure during GSS_Unwrap step."), ev0 :: lp.2)
      else
        let w := ch.kerb.clientWrap u.2 (ch.kerb.clientResponse u.2)
            credentials.username
        if w.1 ≠ 1 then
          (Except.error (AuthError.operationFailure
              "Unknown kerberos failure during GSS_Wrap step."), ev0 :: lp.2)
        else
          let evF := Event.sent "$external"
            [("saslContinue", Value.int 1),
             ("conversationId", Value.int resp2.conversationId),
             ("payload", valueOfOpt (ch.kerb.clientResponse w.2))]
          (Except.ok (), ev0 :: lp.2 ++ [evF])

/-- `_authenticate_gssapi`: subscripting `mechanism_properties` (a
`TypeError` when it is `None`), context initialization — whose non-complete
result raises *before* the `try`/`finally` is entered — and the inner body,
whose `finally` always releases the context. -/
def _authenticate_gssapi {σ : Type} (credentials : MongoCredential)
    (ch : Channel σ) : Except AuthError Unit × List Event :=
  match credentials.mechanism_properties with
  | none => (Except.error (AuthError.typeError
      "NoneType object is not subscriptable"), [])
  | some props =>
    let ir := ch.kerb.clientInit (props.service_name ++ "@" ++ ch.host)
    if ir.1 ≠ 1 then
      (Except.error (AuthError.operationFailure
          "Kerberos context failed to initialize."), [])
    else
      let inner := gssInner credentials ch ir.2
      (inner.1, inner.2 ++ [Event.cleaned])

/-- `MECHANISMS`: the advertised authentication mechanisms frozenset. -/
def MECHANISMS : List String :=
  ["GSSAPI", "MONGODB-CR", "MONGODB-X509", "PLAIN"]

/-- `_AUTH_MAP`: mechanism name to authenticator. -/
def _AUTH_MAP (σ : Type) :
    List (String × (MongoCredential → Channel σ →
      Except AuthError Unit × List Event)) :=
  [("CRAM-MD5", _authenticate_cram_md5),
   ("GSSAPI", _authenticate_gssapi),
   ("MONGODB-CR", _authenticate_mongo_cr),
   ("MONGODB-X509", _authenticate_x509),
   ("PLAIN", _authenticate_plain)]

/-- `authenticate(credentials, sock_info, cmd_func)`: the dispatcher, with
the module-level `HAVE_KERBEROS` import success flag made an explicit
argument.  A mechanism missing from `_AUTH_MAP` makes `auth_func` `None`
and the call of `None` an untyped `TypeError`. -/
def authenticate {σ : Type} (haveKerberos : Bool)
    (credentials : MongoCredential) (ch : Channel σ) :
    Except AuthError Unit × List Event :=
  if credentials.mechanism = "GSSAPI" ∧ haveKerberos = false then
    (Except.error (AuthError.configurationError
        "The \"kerberos\" module must be installed to use GSSAPI authentication."),
     [])
  else
    match (_AUTH_MAP σ).lookup credentials.mechanism with
    | none => (Except.error AuthError.noneNotCallable, [])
    | some f => f credentials ch

/-! ### Concrete fixtures used by the witness and counterexample theorems -/

/-- A trivial kerberos engine: initialization completes, every step
continues, no output is ever produced. -/
def trivKerb : Kerberos Unit :=
  { clientInit := fun _ => (1, ()), clientStep := fun _ _ => (0, ()),
    clientResponse := fun _ => none, clientUnwrap := fun _ _ => (1, ()),
    clientWrap := fun _ _ _ => (1, ()) }

/-- A kerberos engine whose context initialization returns a non-complete
result (the context object still exists). -/
def badInitKerb : Kerberos Unit :=
  { clientInit := fun _ => (0, ()), clientStep := fun _ _ => (0, ()),
    clientResponse := fun _ => none, clientUnwrap := fun _ _ => (1, ()),
    clientWrap := fun _ _ _ => (1, ()) }

/-- A fixed mock server reply. -/
def reply0 : Reply :=
  { payloadB := [], payloadS := "", conversationId := 1, nonce := "" }

/-- The reply used by the CRAM-MD5 end-to-end scenario (challenge
`b"<1896.6969@mail>"`, `conversationId = 1`) and by the MONGODB-CR
scenario (`nonce = "abc123"`). -/
def scenarioReply : Reply :=
  { payloadB := utf8 "<1896.6969@mail>", payloadS := "",
    conversationId := 1, nonce := "abc123" }

/-- A mock channel answering every command with `reply0`. -/
def trivChannel : Channel Unit :=
  { host := "h", reply := fun _ => reply0, kerb := trivKerb }

/-- A mock channel answering every command with `scenarioReply`. -/
def scenarioChannel : Channel Unit :=
  { host := "h", reply := fun _ => scenarioReply, kerb := trivKerb }

/-- A mock channel whose kerberos engine fails to initialize. -/
def badInitChannel : Channel Unit :=
  { host := "h", reply := fun _ => reply0, kerb := badInitKerb }

/-- A GSSAPI credential as produced by the builder. -/
def gssCred : MongoCredential :=
  _build_credentials_tuple "GSSAPI" "admin" "user" none []

/-- A nonempty string has nonzero length. -/
theorem str_length_ne_zero (p : String) (h : p ≠ "") : p.length ≠ 0 := by
  cases p with
  | mk data =>
    simp [String.length]
    intro hd
    exact h (by simp [hd])

/-! ### Claim theorems -/

/-- C4: the credential builder normalizes GSSAPI credentials to source
`"$external"`, absent password, and properties whose `service_name` is the
caller-supplied `gssapiservicename` (defaulting to `"mongodb"` when unset);
MONGODB-X509 likewise gets source `"$external"`, absent password and no
properties — in both cases regardless of the caller-supplied source and
password; every other mechanism passes source, username and password
through unchanged with no properties. -/
theorem build_credentials_normalization
    (mech source user : String) (passwd : Option String)
    (extra : List (String × String)) :
    (_build_credentials_tuple "GSSAPI" source user passwd extra =
      { mechanism := "GSSAPI", source := "$external", username := user,
        password := none,
        mechanism_properties :=
          some ⟨((extra.lookup "gssapiservicename").getD "mongodb")⟩ })
    ∧ (extra.lookup "gssapiservicename" = none →
        (_build_credentials_tuple "GSSAPI" source user passwd
          extra).mechanism_properties = some ⟨"mongodb"⟩)
    ∧ (_build_credentials_tuple "MONGODB-X509" source user passwd extra =
      { mechanism := "MONGODB-X509", source := "$external", username := user,
        password := none, mechanism_properties := none })
    ∧ (mech ≠ "GSSAPI" → mech ≠ "MONGODB-X509" →
        _build_credentials_tuple mech source user passwd extra =
          { mechanism := mech, source := source, username := user,
            password := passwd, mechanism_properties := none }) := by
  refine ⟨by simp [_build_credentials_tuple], ?_,
    by simp [_build_credentials_tuple], ?_⟩
  · intro h
    simp [_build_credentials_tuple, h]
  · intro h1 h2
    simp [_build_credentials_tuple, h1, h2]

/-- Witness for C4: the builder evaluated at concrete GSSAPI and
pass-through inputs. -/
theorem build_credentials_normalization_witness :
    (_build_credentials_tuple "GSSAPI" "admin" "alice" (some "pw") [] =
      { mechanism := "GSSAPI", source := "$external", username := "alice",
        password := none, mechanism_properties := some ⟨"mongodb"⟩ })
    ∧ (_build_credentials_tuple "MONGODB-CR" "admin" "alice" (some "pw") [] =
      { mechanism := "MONGODB-CR", source := "admin", username := "alice",
        password := some "pw", mechanism_properties := none }) :=
  ⟨(build_credentials_normalization "MONGODB-CR" "admin" "alice"
      (some "pw") []).1,
   (build_credentials_normalization "MONGODB-CR" "admin" "alice"
      (some "pw") []).2.2.2 (by decide) (by decide)⟩

/-- C6 (amended): for a textual username and a non-empty textual password,
`_password_digest` returns the hex MD5 digest of the UTF-8 bytes of
`"<username>:mongo:<password>"`; it fails on a non-textual password, an
empty password, and a non-textual username — but an *empty username is
accepted* (the code never checks it). -/
theorem password_digest_spec (u p : String) (upy : PyStr) :
    (p ≠ "" → _password_digest (PyStr.s u) (PyStr.s p) =
      Except.ok (hexdigest (md5 (utf8 (u ++ ":mongo:" ++ p)))))
    ∧ (_password_digest upy (PyStr.s "") =
        Except.error (AuthError.valueError "password can not be empty"))
    ∧ (_password_digest upy PyStr.nonText =
        Except.error (AuthError.typeError "password must be an instance of str"))
    ∧ (p ≠ "" → _password_digest PyStr.nonText (PyStr.s p) =
        Except.error (AuthError.typeError "password must be an instance of str")) := by
  refine ⟨?_, rfl, rfl, ?_⟩
  · intro h
    simp [_password_digest, str_length_ne_zero p h]
  · intro h
    simp [_password_digest, str_length_ne_zero p h]

set_option maxRecDepth 100000 in
/-- Witness for C6: the digest of the spec scenario credential
`("user", "pencil")`, fully evaluated. -/
theorem password_digest_spec_witness :
    _password_digest (PyStr.s "user") (PyStr.s "pencil") =
      Except.ok "1c33006ec1ffd90f9cadcbcc0e118200" :=
  ((password_digest_spec "user" "pencil" PyStr.nonText).1
    (by decide)).trans (by rfl)

set_option maxRecDepth 100000 in
/-- Counterexample for C6 as stated: an *empty username* is not rejected —
`_password_digest("", "x")` succeeds and returns the digest of
`":mongo:x"`, so the claimed failure on "empty username" does not hold. -/
theorem password_digest_empty_username_ok :
    _password_digest (PyStr.s "") (PyStr.s "x") =
      Except.ok "24edc57faa85febb7343485d8f4f2ce8" := by rfl

/-- C5: a PLAIN credential produces exactly one command — `saslStart` with
mechanism `"PLAIN"` and `autoAuthorize 1` against `credential.source` —
whose payload bytes are exactly `NUL + username + NUL + password` in UTF-8,
for every username/password and every channel (no reply is read, no
continuation is sent, the run succeeds unconditionally). -/
theorem plain_single_command {σ : Type} (credentials : MongoCredential)
    (ch : Channel σ) (p : String) (h : credentials.password = some p) :
    _authenticate_plain credentials ch =
      (Except.ok (),
       [Event.sent credentials.source
         [("saslStart", Value.int 1), ("mechanism", Value.str "PLAIN"),
          ("payload", Value.bin
            (utf8 ("\x00" ++ credentials.username ++ "\x00" ++ p))),
          ("autoAuthorize", Value.int 1)]]) := by
  simp [_authenticate_plain, h]

/-- Witness for C5: the spec's end-to-end PLAIN scenario — credential
`("PLAIN", "admin", "alice", "s3cret")` sends one command whose payload
bytes are `\x00alice\x00s3cret`. -/
theorem plain_single_command_witness :
    _authenticate_plain
        (_build_credentials_tuple "PLAIN" "admin" "alice" (some "s3cret") [])
        trivChannel =
      (Except.ok (),
       [Event.sent "admin"
         [("saslStart", Value.int 1), ("mechanism", Value.str "PLAIN"),
          ("payload", Value.bin
            [0, 97, 108, 105, 99, 101, 0, 115, 51, 99, 114, 101, 116]),
          ("autoAuthorize", Value.int 1)]]) :=
  plain_single_command
    (_build_credentials_tuple "PLAIN" "admin" "alice" (some "s3cret") [])
    trivChannel "s3cret" rfl

/-- C7: a CRAM-MD5 credential yields exactly two rounds — a `saslStart`
with mechanism `"CRAM-MD5"`, empty payload and `autoAuthorize 1` against
`credential.source`, then a `saslContinue` carrying the server reply's
`conversationId` and the payload
`username ++ " " ++ hex(HMAC-MD5(key = passwordDigest(username, password),
msg = challenge payload))` — the HMAC key is the legacy digest, not the raw
password. -/
theorem cram_md5_two_rounds {σ : Type} (credentials : MongoCredential)
    (ch : Channel σ) (p : String) (hp : credentials.password = some p)
    (hne : p ≠ "") :
    _authenticate_cram_md5 credentials ch =
      (Except.ok (),
       [Event.sent credentials.source
         [("saslStart", Value.int 1), ("mechanism", Value.str "CRAM-MD5"),
          ("payload", Value.bin []), ("autoAuthorize", Value.int 1)],
        Event.sent credentials.source
         [("saslContinue", Value.int 1),
          ("conversationId", Value.int (ch.reply 0).conversationId),
          ("payload", Value.bin
            (utf8 credentials.username ++ [32] ++
             utf8 (hexdigest (hmacMd5
               (utf8 (hexdigest (md5 (utf8
                 (credentials.username ++ ":mongo:" ++ p)))))
               (ch.reply 0).payloadB))))]]) := by
  simp [_authenticate_cram_md5, hp, pyOfOpt, _password_digest,
    str_length_ne_zero p hne]

set_option maxRecDepth 1000000 in
/-- Witness for C7: the spec's end-to-end CRAM-MD5 scenario — credential
`("user", "pencil")`, challenge `b"<1896.6969@mail>"`, `conversationId 1`;
the second command carries the fully evaluated hex HMAC and the same
conversation id. -/
theorem cram_md5_two_rounds_witness :
    _authenticate_cram_md5
        (_build_credentials_tuple "CRAM-MD5" "admin" "user" (some "pencil") [])
        scenarioChannel =
      (Except.ok (),
       [Event.sent "admin"
         [("saslStart", Value.int 1), ("mechanism", Value.str "CRAM-MD5"),
          ("payload", Value.bin []), ("autoAuthorize", Value.int 1)],
        Event.sent "admin"
         [("saslContinue", Value.int 1),
          ("conversationId", Value.int 1),
          ("payload", Value.bin
            (utf8 "user 9bc8cbe6255adf5865ab52344ef1586b"))]]) :=
  (cram_md5_two_rounds
    (_build_credentials_tuple "CRAM-MD5" "admin" "user" (some "pencil") [])
    scenarioChannel "pencil" rfl (by decide)).trans (by rfl)

/-- C8: a MONGODB-CR credential yields exactly two rounds against
`credential.source` — `{getnonce: 1}`, then an `authenticate` command
carrying `user`, the reply's `nonce`, and
`key = hex(MD5("<nonce><username><passwordDigest(username, password)>"))`. -/
theorem mongo_cr_two_rounds {σ : Type} (credentials : MongoCredential)
    (ch : Channel σ) (p : String) (hp : credentials.password = some p)
    (hne : p ≠ "") :
    _authenticate_mongo_cr credentials ch =
      (Except.ok (),
       [Event.sent credentials.source [("getnonce", Value.int 1)],
        Event.sent credentials.source
         [("authenticate", Value.int 1),
          ("user", Value.str credentials.username),
          ("nonce", Value.str (ch.reply 0).nonce),
          ("key", Value.str (hexdigest (md5 (utf8
            ((ch.reply 0).nonce ++ credentials.username ++
             hexdigest (md5 (utf8
               (credentials.username ++ ":mongo:" ++ p))))))))]]) := by
  simp [_authenticate_mongo_cr, _auth_key, hp, pyOfOpt, _password_digest,
    str_length_ne_zero p hne, bind, Except.bind]

set_option maxRecDepth 1000000 in
/-- Witness for C8: the spec's end-to-end MONGODB-CR scenario — nonce
`"abc123"`, credential `("bob", "pw")`; the second command carries the
fully evaluated key. -/
theorem mongo_cr_two_rounds_witness :
    _authenticate_mongo_cr
        (_build_credentials_tuple "MONGODB-CR" "admin" "bob" (some "pw") [])
        scenarioChannel =
      (Except.ok (),
       [Event.sent "admin" [("getnonce", Value.int 1)],
        Event.sent "admin"
         [("authenticate", Value.int 1), ("user", Value.str "bob"),
          ("nonce", Value.str "abc123"),
          ("key", Value.str "c309bc84ad5a9cb25450105cfd5a49c1")]]) :=
  (mongo_cr_two_rounds
    (_build_credentials_tuple "MONGODB-CR" "admin" "bob" (some "pw") [])
    scenarioChannel "pw" rfl (by decide)).trans (by rfl)

/-- C9 (amended): the *advertised* `MECHANISMS` set has only the four
members `{GSSAPI, MONGODB-CR, MONGODB-X509, PLAIN}` — `CRAM-MD5` is
missing from it — while the dispatch map `_AUTH_MAP` has exactly the five
keys `{CRAM-MD5, GSSAPI, MONGODB-CR, MONGODB-X509, PLAIN}` and the
authenticator lookup succeeds for each of those five names. -/
theorem mechanisms_enumeration :
    (∀ m, m ∈ MECHANISMS ↔
      m ∈ ["GSSAPI", "MONGODB-CR", "MONGODB-X509", "PLAIN"])
    ∧ "CRAM-MD5" ∉ MECHANISMS
    ∧ (∀ (σ : Type), (_AUTH_MAP σ).map Prod.fst =
        ["CRAM-MD5", "GSSAPI", "MONGODB-CR", "MONGODB-X509", "PLAIN"])
    ∧ (∀ m ∈ ["CRAM-MD5", "GSSAPI", "MONGODB-CR", "MONGODB-X509", "PLAIN"],
        ((_AUTH_MAP Unit).lookup m).isSome = true) := by
  refine ⟨fun m => Iff.rfl, by decide, fun σ => rfl, by decide⟩

/-- Witness for C9: the authenticator lookup succeeds at the concrete
key `"GSSAPI"`. -/
theorem mechanisms_enumeration_witness :
    ((_AUTH_MAP Unit).lookup "GSSAPI").isSome = true :=
  mechanisms_enumeration.2.2.2 "GSSAPI" (by decide)

/-- Counterexample for C9 as stated: the advertised set of supported
mechanisms is *not* the five-member set — `CRAM-MD5` is absent from
`MECHANISMS` even though it is a `_AUTH_MAP` key. -/
theorem mechanisms_missing_cram_md5 :
    "CRAM-MD5" ∉ MECHANISMS ∧
      ((_AUTH_MAP Unit).lookup "CRAM-MD5").isSome = true := by
  exact ⟨by decide, by decide⟩

/-- C10: for a credential whose mechanism is none of the five dispatch-map
keys, `authenticate` fails with the untyped error of calling the `None`
returned by the map lookup — not with `ConfigurationError` or
`OperationFailure` — and sends nothing. -/
theorem unknown_mechanism_untyped_failure {σ : Type} (haveKerberos : Bool)
    (credentials : MongoCredential) (ch : Channel σ)
    (h : credentials.mechanism ∉
      ["CRAM-MD5", "GSSAPI", "MONGODB-CR", "MONGODB-X509", "PLAIN"]) :
    authenticate haveKerberos credentials ch =
      (Except.error AuthError.noneNotCallable, [])
    ∧ (∀ m, (authenticate haveKerberos credentials ch).1 ≠
        Except.error (AuthError.configurationError m))
    ∧ (∀ m, (authenticate haveKerberos credentials ch).1 ≠
        Except.error (AuthError.operationFailure m)) := by
  simp only [List.mem_cons, List.not_mem_nil, or_false, not_or] at h
  obtain ⟨h1, h2, h3, h4, h5⟩ := h
  have e1 : (credentials.mechanism == "CRAM-MD5") = false :=
    beq_eq_false_iff_ne.mpr h1
  have e2 : (credentials.mechanism == "GSSAPI") = false :=
    beq_eq_false_iff_ne.mpr h2
  have e3 : (credentials.mechanism == "MONGODB-CR") = false :=
    beq_eq_false_iff_ne.mpr h3
  have e4 : (credentials.mechanism == "MONGODB-X509") = false :=
    beq_eq_false_iff_ne.mpr h4
  have e5 : (credentials.mechanism == "PLAIN") = false :=
    beq_eq_false_iff_ne.mpr h5
  have hmain : authenticate haveKerberos credentials ch =
      (Except.error AuthError.noneNotCallable, []) := by
    simp [authenticate, _AUTH_MAP, List.lookup, h2,
      e1, e2, e3, e4, e5]
  refine ⟨hmain, ?_, ?_⟩ <;> intro m <;> rw [hmain] <;> simp

/-- Witness for C10: a SCRAM-SHA-1 credential (a mechanism this module
does not know) fails with the untyped error and sends nothing. -/
theorem unknown_mechanism_untyped_failure_witness :
    authenticate true
        (_build_credentials_tuple "SCRAM-SHA-1" "admin" "u" (some "pw") [])
        trivChannel =
      (Except.error AuthError.noneNotCallable, []) :=
  (unknown_mechanism_untyped_failure true
    (_build_credentials_tuple "SCRAM-SHA-1" "admin" "u" (some "pw") [])
    trivChannel (by decide)).1

/-- C2: a GSSAPI credential in a runtime without the kerberos capability
makes `authenticate` fail with `ConfigurationError` while sending no
command at all (the event trace is empty). -/
theorem gssapi_without_kerberos_failfast {σ : Type}
    (credentials : MongoCredential) (ch : Channel σ)
    (h : credentials.mechanism = "GSSAPI") :
    authenticate false credentials ch =
      (Except.error (AuthError.configurationError
        "The \"kerberos\" module must be installed to use GSSAPI authentication."),
       []) := by
  simp [authenticate, h]

/-- Witness for C2: the built GSSAPI credential, dispatched without
kerberos, fails fast with an empty event trace. -/
theorem gssapi_without_kerberos_failfast_witness :
    authenticate false gssCred trivChannel =
      (Except.error (AuthError.configurationError
        "The \"kerberos\" module must be installed to use GSSAPI authentication."),
       []) :=
  gssapi_without_kerberos_failfast gssCred trivChannel rfl

/-- C3 (amended): once context initialization reports completion, the
security context is released on every exit path of the handshake —
success, fatal error or exception inside the inner block — but on the path
where initialization returns a non-complete result the code raises
`OperationFailure` *before* entering the `try`/`finally`, so the created
context is not released there. -/
theorem gssapi_cleanup_after_successful_init {σ : Type}
    (credentials : MongoCredential) (ch : Channel σ) (props : GssProps)
    (h1 : credentials.mechanism_properties = some props)
    (h2 : (ch.kerb.clientInit (props.service_name ++ "@" ++ ch.host)).1 = 1) :
    Event.cleaned ∈ (_authenticate_gssapi credentials ch).2 := by
  simp [_authenticate_gssapi, h1, h2]

/-- Witness for C3: a concrete engine whose initialization completes —
the run releases the context. -/
theorem gssapi_cleanup_after_successful_init_witness :
    Event.cleaned ∈ (_authenticate_gssapi gssCred trivChannel).2 :=
  gssapi_cleanup_after_successful_init gssCred trivChannel
    ⟨"mongodb"⟩ rfl rfl

/-- Counterexample for C3 as stated: with an engine whose
`authGSSClientInit` returns a non-complete result (the context object
exists), the run aborts with `OperationFailure` and its event trace
contains no release of the context. -/
theorem gssapi_init_noncomplete_no_cleanup :
    (badInitChannel.kerb.clientInit "mongodb@h" = (0, ()))
    ∧ _authenticate_gssapi gssCred badInitChannel =
        (Except.error (AuthError.operationFailure
          "Kerberos context failed to initialize."), [])
    ∧ Event.cleaned ∉ (_authenticate_gssapi gssCred badInitChannel).2 := by
  refine ⟨rfl, rfl, by simp [_authenticate_gssapi, badInitChannel,
    badInitKerb, gssCred, _build_credentials_tuple]⟩

/-- The negotiate loop sends at most `fuel` commands. -/
theorem gssLoop_length_le {σ : Type} (K : Kerberos σ) (reply : Nat → Reply) :
    ∀ (fuel : Nat) (ctx : σ) (resp : Reply) (idx : Nat),
      (gssLoop K reply fuel ctx resp idx).2.length ≤ fuel := by
  intro fuel
  induction fuel with
  | zero => intro ctx resp idx; simp [gssLoop]
  | succ n ih =>
    intro ctx resp idx
    simp only [gssLoop]
    split
    · simp
    · split
      · simp
      · simpa using Nat.succ_le_succ (ih _ _ _)

/-- Every command the negotiate loop sends is a `saslContinue` against
`"$external"` carrying a conversation id and a string payload. -/
theorem gssLoop_events_sasl {σ : Type} (K : Kerberos σ) (reply : Nat → Reply) :
    ∀ (fuel : Nat) (ctx : σ) (resp : Reply) (idx : Nat),
      ∀ e ∈ (gssLoop K reply fuel ctx resp idx).2, ∃ cid pl,
        e = Event.sent "$external"
          [("saslContinue", Value.int 1),
           ("conversationId", Value.int cid),
           ("payload", Value.str pl)] := by
  intro fuel
  induction fuel with
  | zero => intro ctx resp idx e he; simp [gssLoop] at he
  | succ n ih =>
    intro ctx resp idx e he
    simp only [gssLoop] at he
    split at he
    · simp at he
    · split at he
      · simp at he
        exact ⟨resp.conversationId, _, he⟩
      · simp at he
        rcases he with he | he
        · exact ⟨resp.conversationId, _, he⟩
        · exact ih _ _ _ e he

/-- On an engine whose step never errors and never completes, the loop
exhausts its fuel, fails with the `for`-`else` `OperationFailure`, and
sends exactly `fuel` commands. -/
theorem gssLoop_never_complete {σ : Type} (K : Kerberos σ)
    (reply : Nat → Reply)
    (hstep : ∀ s p, (K.clientStep s p).1 ≠ -1 ∧ (K.clientStep s p).1 ≠ 1) :
    ∀ (fuel : Nat) (ctx : σ) (resp : Reply) (idx : Nat),
      (gssLoop K reply fuel ctx resp idx).1 =
        Except.error (AuthError.operationFailure
          "Kerberos authentication failed to complete.")
      ∧ (gssLoop K reply fuel ctx resp idx).2.length = fuel := by
  intro fuel
  induction fuel with
  | zero => intro ctx resp idx; simp [gssLoop]
  | succ n ih =>
    intro ctx resp idx
    simp only [gssLoop, (hstep ctx resp.payloadS).1, (hstep ctx resp.payloadS).2,
      if_neg, if_false]
    simpa using ih _ _ _

/-- A fatal (`-1`) step result aborts the loop at once with
`OperationFailure` and no command sent. -/
theorem gssLoop_step_error {σ : Type} (K : Kerberos σ) (reply : Nat → Reply)
    (fuel : Nat) (ctx : σ) (resp : Reply) (idx : Nat)
    (h : (K.clientStep ctx resp.payloadS).1 = -1) :
    gssLoop K reply (fuel + 1) ctx resp idx =
      (Except.error (AuthError.operationFailure
        "Unknown kerberos failure in step function."), []) := by
  simp [gssLoop, h]

/-- A completing (`1`) step result sends one final `saslContinue` and
stops the loop successfully. -/
theorem gssLoop_step_complete {σ : Type} (K : Kerberos σ) (reply : Nat → Reply)
    (fuel : Nat) (ctx : σ) (resp : Reply) (idx : Nat)
    (h : (K.clientStep ctx resp.payloadS).1 = 1) :
    gssLoop K reply (fuel + 1) ctx resp idx =
      (Except.ok ((K.clientStep ctx resp.payloadS).2, reply idx),
       [Event.sent "$external"
         [("saslContinue", Value.int 1),
          ("conversationId", Value.int resp.conversationId),
          ("payload", Value.str
            ((K.clientResponse (K.clientStep ctx resp.payloadS).2).getD ""))]]) := by
  have hne : (K.clientStep ctx resp.payloadS).1 ≠ -1 := by
    rw [h]; decide
  simp [gssLoop, hne, h]

/-- C1: the negotiate loop as invoked (fuel 10) sends at most 10
`saslContinue` commands, each carrying a conversation id and the next
context output; an error return from the step is immediately fatal
(`OperationFailure`); a completing step result stops the loop after its
`saslContinue`; and on an engine that never completes (and never errors)
the loop performs exactly its 10 iterations and then fails with
`OperationFailure` instead of exchanging commands forever. -/
theorem gssapi_negotiate_loop_bounded {σ : Type} (K : Kerberos σ)
    (reply : Nat → Reply) (ctx : σ) (resp : Reply) (idx : Nat) :
    (gssLoop K reply 10 ctx resp idx).2.length ≤ 10
    ∧ (∀ e ∈ (gssLoop K reply 10 ctx resp idx).2, ∃ cid pl,
        e = Event.sent "$external"
          [("saslContinue", Value.int 1),
           ("conversationId", Value.int cid),
           ("payload", Value.str pl)])
    ∧ ((∀ s p, (K.clientStep s p).1 ≠ -1 ∧ (K.clientStep s p).1 ≠ 1) →
        (gssLoop K reply 10 ctx resp idx).1 =
          Except.error (AuthError.operationFailure
            "Kerberos authentication failed to complete.")
        ∧ (gssLoop K reply 10 ctx resp idx).2.length = 10)
    ∧ ((K.clientStep ctx resp.payloadS).1 = -1 →
        gssLoop K reply 10 ctx resp idx =
          (Except.error (AuthError.operationFailure
            "Unknown kerberos failure in step function."), []))
    ∧ ((K.clientStep ctx resp.payloadS).1 = 1 →
        gssLoop K reply 10 ctx resp idx =
          (Except.ok ((K.clientStep ctx resp.payloadS).2, reply idx),
           [Event.sent "$external"
             [("saslContinue", Value.int 1),
              ("conversationId", Value.int resp.conversationId),
              ("payload", Value.str
                ((K.clientResponse
                  (K.clientStep ctx resp.payloadS).2).getD ""))]])) :=
  ⟨gssLoop_length_le K reply 10 ctx resp idx,
   gssLoop_events_sasl K reply 10 ctx resp idx,
   fun hstep => gssLoop_never_complete K reply hstep 10 ctx resp idx,
   fun h => gssLoop_step_error K reply 9 ctx resp idx h,
   fun h => gssLoop_step_complete K reply 9 ctx resp idx h⟩

/-- Witness for C1: on the engine whose step always continues and never
completes, the 10-iteration loop fails deterministically with
`OperationFailure` after exactly 10 sends. -/
theorem gssapi_negotiate_loop_bounded_witness :
    (gssLoop trivKerb (fun _ => reply0) 10 () reply0 1).1 =
      Except.error (AuthError.operationFailure
        "Kerberos authentication failed to complete.")
    ∧ (gssLoop trivKerb (fun _ => reply0) 10 () reply0 1).2.length = 10 :=
  (gssapi_negotiate_loop_bounded trivKerb (fun _ => reply0)
    () reply0 1).2.2.1 (fun s p => ⟨by simp [trivKerb], by simp [trivKerb]⟩)

end Auth
